import Mathlib

/-!
Shallow embedding of `.github/actions/ec2-runners/aws.py`, a script that
provisions and decommissions ephemeral AWS EC2 instances acting as
self-hosted CI runners.  The script is deterministic once the responses of
the two external services (the EC2 API and the registration-token REST
endpoint) and the generated UUID are fixed, so we model it as a pure
function from a configuration (the environment variables read at startup)
and an environment oracle (the external responses) to a trace of observable
effects together with a process outcome.
-/

namespace EC2Runners

/-- Python `str.split` with a single-character separator, as used by
`make_label` (`str(uuid.uuid1()).split("-")[0]`).  Mirrors CPython
semantics: `"".split("-") == [""]`, `"-a".split("-") == ["", "a"]`. -/
def pySplit (sep : Char) : List Char → List (List Char)
  | [] => [[]]
  | c :: rest =>
    if c = sep then [] :: pySplit sep rest
    else
      match pySplit sep rest with
      | [] => [[c]]
      | g :: gs => (c :: g) :: gs

/-- `make_label` from aws.py: the first dash-delimited segment of the
textual form of a freshly generated `uuid.uuid1()`.  The UUID string is
supplied by the environment oracle. -/
def make_label (uuidStr : String) : String :=
  String.mk ((pySplit '-' uuidStr.data).headD [])

/-- Textual form of `uuid.uuid1()` as produced by CPython's `uuid` module:
five dash-separated groups of lowercase-hex digits with lengths
8, 4, 4, 4 and 12. -/
def isUuidHexChar (c : Char) : Bool := c.isDigit || ('a' ≤ c && c ≤ 'f')

/-- Validity of a UUID string in its canonical 8-4-4-4-12 form. -/
def validUuid (s : String) : Bool :=
  decide ((pySplit '-' s.data).map List.length = [8, 4, 4, 4, 12]) &&
    s.data.all (fun c => isUuidHexChar c || c = '-')

/-- Python's `in` operator on strings: `needle in hay` is substring
containment, used by `'DryRunOperation' not in str(e)` and by the claims
about boot-script contents. -/
def strContainsSub (hay needle : String) : Bool :=
  decide (needle.data <:+: hay.data)

/-- Python `repr` of a string, as printed for elements of a list by
`print(instances_to_terminate)` (instance ids contain no quotes, so the
simple quoting is exact for them). -/
def pyStrRepr (s : String) : String := "'" ++ s ++ "'"

/-- Python `repr` of a list of strings, the output of
`print(instances_to_terminate)`. -/
def pyListRepr (xs : List String) : String :=
  "[" ++ String.intercalate ", " (xs.map pyStrRepr) ++ "]"

/-- The environment variables read once at script startup (aws.py lines
24-34, plus `INPUT_LABEL` which the stop branch reads). -/
structure Config where
  action : String
  amd_ami : String
  amd_instancetype : String
  arm_ami : String
  arm_instancetype : String
  github_pat : String
  mode : String
  region : String
  repo : String
  securitygroup : String
  subnet : String
  input_label : String
  deriving DecidableEq

/-- The part of an EC2 `run_instances` response that the script reads:
`response['Instances'][0]['InstanceId']` and
`response['Instances'][0]['PrivateIpAddress']`. -/
structure CreateResponse where
  instanceId : String
  privateIp : String
  deriving DecidableEq

/-- One EBS block-device mapping of a `run_instances` request. -/
structure BlockDeviceMapping where
  deviceName : String
  deleteOnTermination : Bool
  volumeSize : Nat
  volumeType : String
  deriving DecidableEq

/-- The `run_instances` request built by `create_instance` (aws.py lines
38-69).  Tags are (key, value) pairs of the instance tag specification. -/
structure RunInstancesRequest where
  blockDeviceMappings : List BlockDeviceMapping
  imageId : String
  instanceType : String
  maxCount : Nat
  minCount : Nat
  monitoringEnabled : Bool
  securityGroupIds : List String
  subnetId : String
  tags : List (String × String)
  userData : String
  deriving DecidableEq

/-- Observable effects of one script run, in order of occurrence:
the registration-token REST call, EC2 API calls (with the full request for
`run_instances`, the tag filter for `describe_instances`, and the id list
and `DryRun` flag for `terminate_instances`), lines printed to stdout, and
the readiness sleep. -/
inductive Event where
  | regTokenFetch : Event
  | createInstance : RunInstancesRequest → Event
  | describeInstances : String → Event
  | terminateCall : List String → Bool → Event
  | printed : String → Event
  | sleep : Nat → Event
  deriving DecidableEq

/-- How the process ends: falling off the end of the script (exit status
0), `sys.exit` with a code, or an uncaught exception propagating (the
process then dies with the exception's message). -/
inductive Outcome where
  | normal : Outcome
  | exited : Nat → Outcome
  | raised : String → Outcome
  deriving DecidableEq

/-- The environment oracle: outcomes of the external calls the script
makes.  `regtoken` is `none` when anything inside `get_regtoken`'s `try`
block fails (network error, malformed response, bad credentials).
`describeRes` yields the instance-id lists of the reservations matching a
tag (or a propagating exception).  `dryRunErr`/`realErr` give the
`ClientError` text raised by `terminate_instances` with `DryRun` true/false
(`none` = the call succeeds).  `createRes` gives the result of the n-th
`run_instances` call of the run (0-based). -/
structure Env where
  regtoken : Option String
  uuidStr : String
  describeRes : String → Except String (List (List String))
  dryRunErr : List String → Option String
  realErr : List String → Option String
  createRes : Nat → Except String CreateResponse

/-- `create_instance` (aws.py lines 38-69): the request it issues, given
the image id, instance type, label and user data. -/
def create_instance_request (cfg : Config) (ami instancetype label userdata : String) :
    RunInstancesRequest :=
  { blockDeviceMappings :=
      [{ deviceName := "/dev/xvda", deleteOnTermination := true,
         volumeSize := 30, volumeType := "gp2" }],
    imageId := ami,
    instanceType := instancetype,
    maxCount := 1,
    minCount := 1,
    monitoringEnabled := false,
    securityGroupIds := [cfg.securitygroup],
    subnetId := cfg.subnet,
    tags := [("Name", label)],
    userData := userdata }

/-- `get_instances_from_tag` (aws.py lines 71-82): describe instances
filtered by `tag:Name`, then flatten the per-reservation instance ids by
the nested loop. -/
def get_instances_from_tag (env : Env) (tag : String) :
    List Event × Except String (List String) :=
  match env.describeRes tag with
  | Except.error e => ([Event.describeInstances tag], Except.error e)
  | Except.ok reservations =>
      ([Event.describeInstances tag], Except.ok reservations.flatten)

/-- Second half of `terminate_instances` (aws.py lines 106-112): the real
(non-dry-run) termination call, whose `ClientError` is caught and merely
printed. -/
def terminate_real (env : Env) (acc : List Event) (ids : List String) :
    List Event × Outcome :=
  let ev := acc ++ [Event.terminateCall ids false]
  match env.realErr ids with
  | none => (ev ++ [Event.printed "Termination was successful"], Outcome.normal)
  | some e => (ev ++ [Event.printed e], Outcome.normal)

/-- `terminate_instances` (aws.py lines 96-112): resolve the tag, print the
id list, issue a dry-run termination (re-raising its `ClientError` unless
the text contains `'DryRunOperation'`), then the real termination. -/
def terminate_instances (env : Env) (tag : String) : List Event × Outcome :=
  match get_instances_from_tag env tag with
  | (ev0, Except.error e) => (ev0, Outcome.raised e)
  | (ev0, Except.ok instances_to_terminate) =>
    let ev2 := ev0 ++ [Event.printed (pyListRepr instances_to_terminate),
                       Event.terminateCall instances_to_terminate true]
    match env.dryRunErr instances_to_terminate with
    | some e =>
        if strContainsSub e "DryRunOperation" then
          terminate_real env ev2 instances_to_terminate
        else (ev2, Outcome.raised e)
    | none => terminate_real env ev2 instances_to_terminate

/-- The ARM helper instance's user data (aws.py line 119): empty. -/
def arm_userdata : String := ""

/-- The buildx fragment of the primary boot script (aws.py lines 126-132),
an f-string interpolating the ARM instance's private IP. -/
def buildx_userdata (arm_private_ip : String) : String :=
  "\n        echo \"" ++ arm_private_ip ++
    " buildx\" >> /etc/hosts\n        DOCKER_HOST=tcp://buildx:2375 docker buildx create --name cluster\n        docker buildx create --name cluster --append\n        docker buildx use cluster\n        docker buildx inspect --bootstrap\n        "

/-- The primary (AMD) instance's boot script (aws.py lines 136-143), an
f-string interpolating the buildx fragment, the repository, the
registration token and the label. -/
def amd_userdata (repo reg_token label buildx_ud : String) : String :=
  "#!/bin/bash\n        " ++ buildx_ud ++
    "\n        mkdir /tmp/actions-runner && cd /tmp/actions-runner\n        curl -o actions-runner-linux-x64-2.288.1.tar.gz -L https://github.com/actions/runner/releases/download/v2.288.1/actions-runner-linux-x64-2.288.1.tar.gz\n        tar xzf ./actions-runner-linux-x64-2.288.1.tar.gz\n        RUNNER_ALLOW_RUNASROOT=1 ./config.sh --url https://github.com/" ++
    repo ++ " --token " ++ reg_token ++ " --labels " ++ label ++
    " --ephemeral --unattended\n        RUNNER_ALLOW_RUNASROOT=1 ./run.sh\n    "

/-- Tail of the start branch (aws.py lines 136-146): build the primary boot
script, print the `::set-output` line, then launch the primary (AMD)
instance.  `callIdx` is the index of this `run_instances` call within the
run (1 in buildx mode, 0 otherwise). -/
def start_amd (cfg : Config) (env : Env) (acc : List Event)
    (reg_token label buildx_ud : String) (callIdx : Nat) :
    List Event × Outcome :=
  let ud := amd_userdata cfg.repo reg_token label buildx_ud
  let ev := acc ++
    [Event.printed ("::set-output name=label::" ++ label),
     Event.createInstance
       (create_instance_request cfg cfg.amd_ami cfg.amd_instancetype label ud)]
  match env.createRes callIdx with
  | Except.error e => (ev, Outcome.raised e)
  | Except.ok _ => (ev, Outcome.normal)

/-- The start branch (aws.py lines 114-146): fetch the registration token
(exiting with status 1 on failure), generate the label, in buildx mode
launch the ARM helper and sleep 20 seconds, then launch the primary (AMD)
instance. -/
def start_run (cfg : Config) (env : Env) : List Event × Outcome :=
  match env.regtoken with
  | none =>
      ([Event.regTokenFetch,
        Event.printed "ERROR: Unable to get GHA self-hosted registration token"],
       Outcome.exited 1)
  | some reg_token =>
    let label := make_label env.uuidStr
    let ev0 := [Event.regTokenFetch,
                Event.printed ("Creating instances with tag " ++ label)]
    if cfg.mode = "buildx" then
      let armReq := create_instance_request cfg cfg.arm_ami cfg.arm_instancetype
        label arm_userdata
      let ev1 := ev0 ++ [Event.createInstance armReq]
      match env.createRes 0 with
      | Except.error e => (ev1, Outcome.raised e)
      | Except.ok arminstance =>
        let arm_private_ip := arminstance.privateIp
        let ev2 := ev1 ++
          [Event.printed ("Started ARM instance " ++ arminstance.instanceId ++
             " at " ++ arm_private_ip),
           Event.printed ("Sleeping for 20s so " ++ arminstance.instanceId ++
             " will be ready"),
           Event.sleep 20]
        start_amd cfg env ev2 reg_token label (buildx_userdata arm_private_ip) 1
    else
      start_amd cfg env ev0 reg_token label "" 0

/-- Top-level dispatch (aws.py lines 114 and 148): two sequential `if`s on
the action value; the second runs only if the first branch did not exit or
raise. -/
def main_run (cfg : Config) (env : Env) : List Event × Outcome :=
  if cfg.action = "start" then
    match start_run cfg env with
    | (tr, Outcome.normal) =>
        if cfg.action = "stop" then
          let r2 := terminate_instances env cfg.input_label
          (tr ++ r2.1, r2.2)
        else (tr, Outcome.normal)
    | (tr, o) => (tr, o)
  else
    if cfg.action = "stop" then terminate_instances env cfg.input_label
    else ([], Outcome.normal)

/-- The `run_instances` requests occurring in a trace, in order. -/
def createEvents (tr : List Event) : List RunInstancesRequest :=
  tr.filterMap fun e =>
    match e with
    | Event.createInstance req => some req
    | _ => none

/-- A concrete configuration used to exercise the model on closed inputs. -/
def sampleCfg : Config :=
  { action := "start", amd_ami := "ami-amd", amd_instancetype := "m5.large",
    arm_ami := "ami-arm", arm_instancetype := "a1.large", github_pat := "pat",
    mode := "single", region := "us-east-1", repo := "owner/repo",
    securitygroup := "sg-1", subnet := "subnet-1", input_label := "lbl" }

/-- `sampleCfg` with the stop action selected. -/
def sampleStopCfg : Config := { sampleCfg with action := "stop" }

/-- `sampleCfg` with multi-arch (buildx) mode selected. -/
def sampleBuildxCfg : Config := { sampleCfg with mode := "buildx" }

/-- A concrete environment oracle: the token fetch succeeds, the UUID is
canonical, one reservation with two instances matches any tag, the dry-run
termination raises the expected `DryRunOperation` signal, the real
termination succeeds, and every `run_instances` call succeeds. -/
def sampleEnv : Env :=
  { regtoken := some "tok",
    uuidStr := "12345678-1234-1234-1234-123456789abc",
    describeRes := fun _ => Except.ok [["i-1", "i-2"]],
    dryRunErr := fun _ => some "An error occurred (DryRunOperation) when calling",
    realErr := fun _ => none,
    createRes := fun _ => Except.ok ⟨"i-0abc", "10.0.0.5"⟩ }

/-- `sampleEnv` with a tag lookup matching no reservations at all. -/
def emptyDescribeEnv : Env := { sampleEnv with describeRes := fun _ => Except.ok [] }

/-- `sampleEnv` with a dry-run termination failing with a genuine
(non-dry-run) error. -/
def denyDryRunEnv : Env :=
  { sampleEnv with
    describeRes := fun _ => Except.ok [["i-1"]],
    dryRunErr := fun _ => some "UnauthorizedOperation" }

/-- `sampleEnv` with a failing registration-token fetch. -/
def noTokenEnv : Env := { sampleEnv with regtoken := none }

/-! ## General lemmas about the embedding -/

/-- A string obtained by surrounding the needle with arbitrary material
contains the needle. -/
theorem strContainsSub_of_parts (pre needle post : String) :
    strContainsSub (pre ++ needle ++ post) needle = true := by
  simp only [strContainsSub, String.data_append, decide_eq_true_iff]
  exact List.infix_append _ _ _

/-- Substring containment established by exhibiting the surrounding
material. -/
theorem strContainsSub_of_eq (hay pre needle post : String)
    (h : hay = pre ++ needle ++ post) : strContainsSub hay needle = true := by
  rw [h]; exact strContainsSub_of_parts pre needle post

/-- `pySplit` never returns the empty list of groups (mirroring the fact
that Python's `str.split` never returns `[]`, so indexing `[0]` into it is
safe). -/
theorem pySplit_ne_nil (sep : Char) (l : List Char) : pySplit sep l ≠ [] := by
  cases l with
  | nil => simp [pySplit]
  | cons c rest =>
    simp only [pySplit]
    split
    · simp
    · split <;> simp

/-- The first group produced by `pySplit` never contains the separator. -/
theorem pySplit_head_no_sep (sep : Char) (l : List Char) :
    sep ∉ (pySplit sep l).headD [] := by
  induction l with
  | nil => simp [pySplit]
  | cons c rest ih =>
    by_cases hc : c = sep
    · simp [pySplit, hc]
    · simp only [pySplit, if_neg hc]
      cases h : pySplit sep rest with
      | nil => exact absurd h (pySplit_ne_nil sep rest)
      | cons g gs =>
        rw [h] at ih
        simp only [List.headD_cons, List.mem_cons, not_or] at ih ⊢
        exact ⟨fun hsc => hc hsc.symm, ih⟩

/-- A label derived from a canonical UUID string is the 8-character first
hex group: in particular it is non-empty and dash-free. -/
theorem make_label_of_validUuid (s : String) (h : validUuid s = true) :
    make_label s ≠ "" ∧ '-' ∉ (make_label s).data := by
  have h1 : (pySplit '-' s.data).map List.length = [8, 4, 4, 4, 12] :=
    of_decide_eq_true ((Bool.and_eq_true _ _).mp h).1
  have hnd : '-' ∉ ((pySplit '-' s.data).headD []) := pySplit_head_no_sep '-' s.data
  cases hg : pySplit '-' s.data with
  | nil => rw [hg] at h1; simp at h1
  | cons g gs =>
    rw [hg] at h1 hnd
    have hlen : g.length = 8 := by
      simpa using congrArg (fun l => l.headD 0) h1
    simp only [List.headD_cons] at hnd
    constructor
    · intro he
      have : g = [] := congrArg String.data (by simpa [make_label, hg] using he)
      rw [this] at hlen
      simp at hlen
    · simpa [make_label, hg] using hnd

/-- When the action is `stop`, the run is exactly `terminate_instances` on
the label from the environment. -/
theorem main_run_stop_eq (cfg : Config) (env : Env) (ha : cfg.action = "stop") :
    main_run cfg env = terminate_instances env cfg.input_label := by
  have h1 : ¬ cfg.action = "start" := by rw [ha]; decide
  simp [main_run, h1, ha]

/-- When the action is `start`, the trace of the run is the trace of the
start branch. -/
theorem main_run_start_fst (cfg : Config) (env : Env) (ha : cfg.action = "start") :
    (main_run cfg env).1 = (start_run cfg env).1 := by
  have h2 : ¬ cfg.action = "stop" := by rw [ha]; decide
  simp only [main_run, if_pos ha]
  rcases hs : start_run cfg env with ⟨tr, o⟩
  cases o <;> simp [h2]

/-- When the action is `start`, the outcome of the run is the outcome of
the start branch. -/
theorem main_run_start_snd (cfg : Config) (env : Env) (ha : cfg.action = "start") :
    (main_run cfg env).2 = (start_run cfg env).2 := by
  have h2 : ¬ cfg.action = "stop" := by rw [ha]; decide
  simp only [main_run, if_pos ha]
  rcases hs : start_run cfg env with ⟨tr, o⟩
  cases o <;> simp [h2]

/-- The events of the final segment of the start branch do not depend on
whether the primary `run_instances` call succeeds. -/
theorem start_amd_fst (cfg : Config) (env : Env) (acc : List Event)
    (reg_token label buildx_ud : String) (callIdx : Nat) :
    (start_amd cfg env acc reg_token label buildx_ud callIdx).1 =
      acc ++
        [Event.printed ("::set-output name=label::" ++ label),
         Event.createInstance (create_instance_request cfg cfg.amd_ami
           cfg.amd_instancetype label (amd_userdata cfg.repo reg_token label buildx_ud))] := by
  simp only [start_amd]
  cases env.createRes callIdx <;> rfl

/-- Trace of the start branch outside buildx mode. -/
theorem start_run_fst_nonbuildx (cfg : Config) (env : Env) (t : String)
    (hm : ¬ cfg.mode = "buildx") (hr : env.regtoken = some t) :
    (start_run cfg env).1 =
      [Event.regTokenFetch,
       Event.printed ("Creating instances with tag " ++ make_label env.uuidStr),
       Event.printed ("::set-output name=label::" ++ make_label env.uuidStr),
       Event.createInstance (create_instance_request cfg cfg.amd_ami
         cfg.amd_instancetype (make_label env.uuidStr)
         (amd_userdata cfg.repo t (make_label env.uuidStr) ""))] := by
  simp only [start_run, hr, if_neg hm]
  rw [start_amd_fst]
  rfl

/-- Trace of the start branch in buildx mode when the ARM helper launch
succeeds. -/
theorem start_run_fst_buildx (cfg : Config) (env : Env) (t : String) (r : CreateResponse)
    (hm : cfg.mode = "buildx") (hr : env.regtoken = some t)
    (hc : env.createRes 0 = Except.ok r) :
    (start_run cfg env).1 =
      [Event.regTokenFetch,
       Event.printed ("Creating instances with tag " ++ make_label env.uuidStr),
       Event.createInstance (create_instance_request cfg cfg.arm_ami
         cfg.arm_instancetype (make_label env.uuidStr) arm_userdata),
       Event.printed ("Started ARM instance " ++ r.instanceId ++ " at " ++ r.privateIp),
       Event.printed ("Sleeping for 20s so " ++ r.instanceId ++ " will be ready"),
       Event.sleep 20,
       Event.printed ("::set-output name=label::" ++ make_label env.uuidStr),
       Event.createInstance (create_instance_request cfg cfg.amd_ami
         cfg.amd_instancetype (make_label env.uuidStr)
         (amd_userdata cfg.repo t (make_label env.uuidStr)
           (buildx_userdata r.privateIp)))] := by
  simp only [start_run, hr, if_pos hm, hc]
  rw [start_amd_fst]
  rfl

/-- Trace and outcome of `terminate_instances` when the tag lookup answers
and the dry-run termination either succeeds or raises the expected
`DryRunOperation` signal. -/
theorem terminate_instances_ok (env : Env) (tag : String) (rss : List (List String))
    (hd : env.describeRes tag = Except.ok rss)
    (hdry : ∀ e, env.dryRunErr rss.flatten = some e →
      strContainsSub e "DryRunOperation" = true) :
    ∃ final, terminate_instances env tag =
      ([Event.describeInstances tag, Event.printed (pyListRepr rss.flatten),
        Event.terminateCall rss.flatten true, Event.terminateCall rss.flatten false,
        Event.printed final], Outcome.normal) := by
  cases hde : env.dryRunErr rss.flatten with
  | none =>
    simp only [terminate_instances, get_instances_from_tag, hd, hde, terminate_real]
    cases env.realErr rss.flatten with
    | none => exact ⟨"Termination was successful", rfl⟩
    | some e => exact ⟨e, rfl⟩
  | some e =>
    simp only [terminate_instances, get_instances_from_tag, hd, hde, hdry e hde,
      if_true, terminate_real]
    cases env.realErr rss.flatten with
    | none => exact ⟨"Termination was successful", rfl⟩
    | some e2 => exact ⟨e2, rfl⟩

/-- Trace and outcome of `terminate_instances` when the dry-run
termination raises a genuine error. -/
theorem terminate_instances_dryrun_fail (env : Env) (tag : String)
    (rss : List (List String)) (e : String)
    (hd : env.describeRes tag = Except.ok rss)
    (hdry : env.dryRunErr rss.flatten = some e)
    (hmark : strContainsSub e "DryRunOperation" = false) :
    terminate_instances env tag =
      ([Event.describeInstances tag, Event.printed (pyListRepr rss.flatten),
        Event.terminateCall rss.flatten true], Outcome.raised e) := by
  simp only [terminate_instances, get_instances_from_tag, hd, hdry]
  rw [if_neg (by simp [hmark])]
  exact rfl

/-! ## The claims -/

/-- Claim C1: for every label that matches zero instances, the stop action
completes without raising any error and never passes any instance ID to
the termination operation (its two `terminate_instances` calls both carry
the empty id list), provided the dry-run call behaves as a dry run (it
succeeds or raises the expected `DryRunOperation` signal). -/
theorem stop_zero_matches_clean (cfg : Config) (env : Env) (rss : List (List String))
    (ha : cfg.action = "stop")
    (hd : env.describeRes cfg.input_label = Except.ok rss)
    (h0 : rss.flatten = [])
    (hdry : ∀ e, env.dryRunErr [] = some e →
      strContainsSub e "DryRunOperation" = true) :
    (main_run cfg env).2 = Outcome.normal ∧
      ∀ ids dr, Event.terminateCall ids dr ∈ (main_run cfg env).1 → ids = [] := by
  rw [main_run_stop_eq cfg env ha]
  obtain ⟨final, hfin⟩ := terminate_instances_ok env cfg.input_label rss hd (h0 ▸ hdry)
  rw [h0] at hfin
  rw [hfin]
  refine ⟨rfl, ?_⟩
  intro ids dr hmem
  simp only [List.mem_cons, List.not_mem_nil, or_false] at hmem
  rcases hmem with h | h | h | h | h <;> first
    | (cases h; rfl)
    | (exact absurd h (by simp))

/-- Claim C1 witness. -/
theorem stop_zero_matches_clean_w :
    (main_run sampleStopCfg emptyDescribeEnv).2 = Outcome.normal ∧
      ∀ ids dr, Event.terminateCall ids dr ∈ (main_run sampleStopCfg emptyDescribeEnv).1 →
        ids = [] :=
  stop_zero_matches_clean sampleStopCfg emptyDescribeEnv [] rfl rfl rfl
    (fun e he => by injection he with h; rw [← h]; decide)

/-- Claim C2: if the dry-run termination raises an error whose text does
not contain `'DryRunOperation'`, the real (non-dry-run) termination call is
never issued and the error propagates out of the stop action. -/
theorem stop_dryrun_error_propagates (cfg : Config) (env : Env)
    (rss : List (List String)) (e : String)
    (ha : cfg.action = "stop")
    (hd : env.describeRes cfg.input_label = Except.ok rss)
    (hdry : env.dryRunErr rss.flatten = some e)
    (hmark : strContainsSub e "DryRunOperation" = false) :
    (main_run cfg env).2 = Outcome.raised e ∧
      ∀ ids, Event.terminateCall ids false ∉ (main_run cfg env).1 := by
  rw [main_run_stop_eq cfg env ha,
    terminate_instances_dryrun_fail env cfg.input_label rss e hd hdry hmark]
  refine ⟨rfl, ?_⟩
  intro ids hmem
  simp only [List.mem_cons, List.not_mem_nil, or_false] at hmem
  rcases hmem with h | h | h <;> simp at h

/-- Claim C2 witness. -/
theorem stop_dryrun_error_propagates_w :
    (main_run sampleStopCfg denyDryRunEnv).2 = Outcome.raised "UnauthorizedOperation" ∧
      ∀ ids, Event.terminateCall ids false ∉ (main_run sampleStopCfg denyDryRunEnv).1 :=
  stop_dryrun_error_propagates sampleStopCfg denyDryRunEnv [["i-1"]]
    "UnauthorizedOperation" rfl rfl rfl (by decide)

/-- Claim C9: for a stop invocation whose label matches a non-empty set of
instances, the dry-run termination call receives exactly the flattened list
of ids produced by the tag lookup, it is issued before the real termination
call, and the real call receives the same id list (assuming the dry-run
call behaves as a dry run). -/
theorem stop_terminate_call_sequence (cfg : Config) (env : Env)
    (rss : List (List String))
    (ha : cfg.action = "stop")
    (hd : env.describeRes cfg.input_label = Except.ok rss)
    (_hne : rss.flatten ≠ [])
    (hdry : ∀ e, env.dryRunErr rss.flatten = some e →
      strContainsSub e "DryRunOperation" = true) :
    ∃ final, (main_run cfg env).1 =
      [Event.describeInstances cfg.input_label,
       Event.printed (pyListRepr rss.flatten),
       Event.terminateCall rss.flatten true,
       Event.terminateCall rss.flatten false,
       Event.printed final] := by
  rw [main_run_stop_eq cfg env ha]
  obtain ⟨final, hfin⟩ := terminate_instances_ok env cfg.input_label rss hd hdry
  exact ⟨final, by rw [hfin]⟩

/-- Claim C9 witness. -/
theorem stop_terminate_call_sequence_w :
    ∃ final, (main_run sampleStopCfg sampleEnv).1 =
      [Event.describeInstances sampleStopCfg.input_label,
       Event.printed (pyListRepr [["i-1", "i-2"]].flatten),
       Event.terminateCall [["i-1", "i-2"]].flatten true,
       Event.terminateCall [["i-1", "i-2"]].flatten false,
       Event.printed final] :=
  stop_terminate_call_sequence sampleStopCfg sampleEnv [["i-1", "i-2"]] rfl rfl
    (by decide) (fun e he => by injection he with h; rw [← h]; decide)

/-- Claim C3: if the registration-token fetch fails for any reason, the
start action prints the fixed error message and exits with status 1, and
no instance-creation call occurs. -/
theorem start_regtoken_failure_exits (cfg : Config) (env : Env)
    (ha : cfg.action = "start") (hr : env.regtoken = none) :
    main_run cfg env =
      ([Event.regTokenFetch,
        Event.printed "ERROR: Unable to get GHA self-hosted registration token"],
       Outcome.exited 1) ∧
      ∀ req, Event.createInstance req ∉ (main_run cfg env).1 := by
  have hs : start_run cfg env =
      ([Event.regTokenFetch,
        Event.printed "ERROR: Unable to get GHA self-hosted registration token"],
       Outcome.exited 1) := by
    simp [start_run, hr]
  have hm : main_run cfg env =
      ([Event.regTokenFetch,
        Event.printed "ERROR: Unable to get GHA self-hosted registration token"],
       Outcome.exited 1) := by
    simp [main_run, if_pos ha, hs]
  refine ⟨hm, ?_⟩
  intro req hmem
  rw [hm] at hmem
  simp at hmem

/-- Claim C3 witness. -/
theorem start_regtoken_failure_exits_w :
    main_run sampleCfg noTokenEnv =
      ([Event.regTokenFetch,
        Event.printed "ERROR: Unable to get GHA self-hosted registration token"],
       Outcome.exited 1) ∧
      ∀ req, Event.createInstance req ∉ (main_run sampleCfg noTokenEnv).1 :=
  start_regtoken_failure_exits sampleCfg noTokenEnv rfl rfl

/-- Claim C8: every `run_instances` request built by `create_instance`
asks for exactly one instance (MinCount = MaxCount = 1) with a 30 GB gp2
root volume marked delete-on-termination, placed in the configured subnet
and security group, tagged Name = label, with monitoring disabled. -/
theorem create_instance_request_shape (cfg : Config)
    (ami instancetype label userdata : String) :
    (create_instance_request cfg ami instancetype label userdata).minCount = 1 ∧
    (create_instance_request cfg ami instancetype label userdata).maxCount = 1 ∧
    (create_instance_request cfg ami instancetype label userdata).blockDeviceMappings =
      [{ deviceName := "/dev/xvda", deleteOnTermination := true,
         volumeSize := 30, volumeType := "gp2" }] ∧
    (create_instance_request cfg ami instancetype label userdata).subnetId = cfg.subnet ∧
    (create_instance_request cfg ami instancetype label userdata).securityGroupIds =
      [cfg.securitygroup] ∧
    (create_instance_request cfg ami instancetype label userdata).tags =
      [("Name", label)] ∧
    (create_instance_request cfg ami instancetype label userdata).monitoringEnabled =
      false :=
  ⟨rfl, rfl, rfl, rfl, rfl, rfl, rfl⟩

/-- Claim C10: for every action value other than `start` and `stop`, the
run performs no external call at all (the trace is empty) and the process
terminates normally with exit status 0. -/
theorem unknown_action_no_effects (cfg : Config) (env : Env)
    (h1 : ¬ cfg.action = "start") (h2 : ¬ cfg.action = "stop") :
    main_run cfg env = ([], Outcome.normal) := by
  simp [main_run, if_neg h1, if_neg h2]

/-- Claim C10 witness. -/
theorem unknown_action_no_effects_w :
    main_run { sampleCfg with action := "status" } sampleEnv = ([], Outcome.normal) :=
  unknown_action_no_effects { sampleCfg with action := "status" } sampleEnv
    (by decide) (by decide)

/-- The primary boot script contains the registration token verbatim. -/
theorem amd_userdata_contains_token (repo reg_token label bud : String) :
    strContainsSub (amd_userdata repo reg_token label bud) reg_token = true :=
  strContainsSub_of_eq _
    ("#!/bin/bash\n        " ++ bud ++
      "\n        mkdir /tmp/actions-runner && cd /tmp/actions-runner\n        curl -o actions-runner-linux-x64-2.288.1.tar.gz -L https://github.com/actions/runner/releases/download/v2.288.1/actions-runner-linux-x64-2.288.1.tar.gz\n        tar xzf ./actions-runner-linux-x64-2.288.1.tar.gz\n        RUNNER_ALLOW_RUNASROOT=1 ./config.sh --url https://github.com/" ++
      repo ++ " --token ")
    reg_token
    (" --labels " ++ label ++
      " --ephemeral --unattended\n        RUNNER_ALLOW_RUNASROOT=1 ./run.sh\n    ")
    (by simp only [amd_userdata, String.append_assoc])

/-- The primary boot script contains the label verbatim. -/
theorem amd_userdata_contains_label (repo reg_token label bud : String) :
    strContainsSub (amd_userdata repo reg_token label bud) label = true :=
  strContainsSub_of_eq _
    ("#!/bin/bash\n        " ++ bud ++
      "\n        mkdir /tmp/actions-runner && cd /tmp/actions-runner\n        curl -o actions-runner-linux-x64-2.288.1.tar.gz -L https://github.com/actions/runner/releases/download/v2.288.1/actions-runner-linux-x64-2.288.1.tar.gz\n        tar xzf ./actions-runner-linux-x64-2.288.1.tar.gz\n        RUNNER_ALLOW_RUNASROOT=1 ./config.sh --url https://github.com/" ++
      repo ++ " --token " ++ reg_token ++ " --labels ")
    label
    (" --ephemeral --unattended\n        RUNNER_ALLOW_RUNASROOT=1 ./run.sh\n    ")
    (by simp only [amd_userdata, String.append_assoc])

/-- The primary boot script passes the label through the runner agent's
`--labels` flag. -/
theorem amd_userdata_contains_labels_flag (repo reg_token label bud : String) :
    strContainsSub (amd_userdata repo reg_token label bud)
      (" --labels " ++ label) = true :=
  strContainsSub_of_eq _
    ("#!/bin/bash\n        " ++ bud ++
      "\n        mkdir /tmp/actions-runner && cd /tmp/actions-runner\n        curl -o actions-runner-linux-x64-2.288.1.tar.gz -L https://github.com/actions/runner/releases/download/v2.288.1/actions-runner-linux-x64-2.288.1.tar.gz\n        tar xzf ./actions-runner-linux-x64-2.288.1.tar.gz\n        RUNNER_ALLOW_RUNASROOT=1 ./config.sh --url https://github.com/" ++
      repo ++ " --token " ++ reg_token)
    (" --labels " ++ label)
    (" --ephemeral --unattended\n        RUNNER_ALLOW_RUNASROOT=1 ./run.sh\n    ")
    (by simp only [amd_userdata, String.append_assoc])

/-- In buildx mode the primary boot script contains the ARM helper's
private IP verbatim. -/
theorem amd_userdata_contains_ip (repo reg_token label ip : String) :
    strContainsSub (amd_userdata repo reg_token label (buildx_userdata ip)) ip = true :=
  strContainsSub_of_eq _
    ("#!/bin/bash\n        " ++ "\n        echo \"")
    ip
    (" buildx\" >> /etc/hosts\n        DOCKER_HOST=tcp://buildx:2375 docker buildx create --name cluster\n        docker buildx create --name cluster --append\n        docker buildx use cluster\n        docker buildx inspect --bootstrap\n        " ++
      "\n        mkdir /tmp/actions-runner && cd /tmp/actions-runner\n        curl -o actions-runner-linux-x64-2.288.1.tar.gz -L https://github.com/actions/runner/releases/download/v2.288.1/actions-runner-linux-x64-2.288.1.tar.gz\n        tar xzf ./actions-runner-linux-x64-2.288.1.tar.gz\n        RUNNER_ALLOW_RUNASROOT=1 ./config.sh --url https://github.com/" ++
      repo ++ " --token " ++ reg_token ++ " --labels " ++ label ++
      " --ephemeral --unattended\n        RUNNER_ALLOW_RUNASROOT=1 ./run.sh\n    ")
    (by simp only [amd_userdata, buildx_userdata, String.append_assoc])

/-- Claim C4: outside buildx mode, a start invocation issues exactly one
instance-creation call, whose boot script contains both the fetched
registration token and the generated label. -/
theorem start_nonbuildx_single_create (cfg : Config) (env : Env) (t : String)
    (ha : cfg.action = "start") (hm : ¬ cfg.mode = "buildx")
    (hr : env.regtoken = some t) :
    createEvents (main_run cfg env).1 =
      [create_instance_request cfg cfg.amd_ami cfg.amd_instancetype
        (make_label env.uuidStr) (amd_userdata cfg.repo t (make_label env.uuidStr) "")] ∧
    strContainsSub (amd_userdata cfg.repo t (make_label env.uuidStr) "") t = true ∧
    strContainsSub (amd_userdata cfg.repo t (make_label env.uuidStr) "")
      (make_label env.uuidStr) = true := by
  refine ⟨?_, amd_userdata_contains_token _ _ _ _, amd_userdata_contains_label _ _ _ _⟩
  rw [main_run_start_fst cfg env ha, start_run_fst_nonbuildx cfg env t hm hr]
  rfl

/-- Claim C4 witness. -/
theorem start_nonbuildx_single_create_w :
    createEvents (main_run sampleCfg sampleEnv).1 =
      [create_instance_request sampleCfg sampleCfg.amd_ami sampleCfg.amd_instancetype
        (make_label sampleEnv.uuidStr)
        (amd_userdata sampleCfg.repo "tok" (make_label sampleEnv.uuidStr) "")] ∧
    strContainsSub (amd_userdata sampleCfg.repo "tok" (make_label sampleEnv.uuidStr) "")
      "tok" = true ∧
    strContainsSub (amd_userdata sampleCfg.repo "tok" (make_label sampleEnv.uuidStr) "")
      (make_label sampleEnv.uuidStr) = true :=
  start_nonbuildx_single_create sampleCfg sampleEnv "tok" rfl (by decide) rfl

/-- Claim C5: in buildx mode, a start invocation whose ARM helper launch
succeeds issues exactly two instance-creation calls, and the boot script of
the second (AMD) one contains the private IP reported for the first (ARM)
one. -/
theorem start_buildx_two_creates (cfg : Config) (env : Env) (t : String)
    (r : CreateResponse)
    (ha : cfg.action = "start") (hm : cfg.mode = "buildx")
    (hr : env.regtoken = some t) (hc : env.createRes 0 = Except.ok r) :
    createEvents (main_run cfg env).1 =
      [create_instance_request cfg cfg.arm_ami cfg.arm_instancetype
         (make_label env.uuidStr) arm_userdata,
       create_instance_request cfg cfg.amd_ami cfg.amd_instancetype
         (make_label env.uuidStr)
         (amd_userdata cfg.repo t (make_label env.uuidStr)
           (buildx_userdata r.privateIp))] ∧
    strContainsSub
      (amd_userdata cfg.repo t (make_label env.uuidStr) (buildx_userdata r.privateIp))
      r.privateIp = true := by
  refine ⟨?_, amd_userdata_contains_ip _ _ _ _⟩
  rw [main_run_start_fst cfg env ha, start_run_fst_buildx cfg env t r hm hr hc]
  rfl

/-- Claim C5 witness. -/
theorem start_buildx_two_creates_w :
    createEvents (main_run sampleBuildxCfg sampleEnv).1 =
      [create_instance_request sampleBuildxCfg sampleBuildxCfg.arm_ami
         sampleBuildxCfg.arm_instancetype (make_label sampleEnv.uuidStr) arm_userdata,
       create_instance_request sampleBuildxCfg sampleBuildxCfg.amd_ami
         sampleBuildxCfg.amd_instancetype (make_label sampleEnv.uuidStr)
         (amd_userdata sampleBuildxCfg.repo "tok" (make_label sampleEnv.uuidStr)
           (buildx_userdata (CreateResponse.mk "i-0abc" "10.0.0.5").privateIp))] ∧
    strContainsSub
      (amd_userdata sampleBuildxCfg.repo "tok" (make_label sampleEnv.uuidStr)
        (buildx_userdata (CreateResponse.mk "i-0abc" "10.0.0.5").privateIp))
      (CreateResponse.mk "i-0abc" "10.0.0.5").privateIp = true :=
  start_buildx_two_creates sampleBuildxCfg sampleEnv "tok"
    (CreateResponse.mk "i-0abc" "10.0.0.5") rfl rfl rfl rfl

/-- Claim C6: on every start invocation the generated label is non-empty
and dash-free, every instance-creation call of the invocation carries it as
the Name tag, and the last (AMD) creation call's boot script embeds it as
the runner label behind the `--labels` flag. -/
theorem start_label_invariants (cfg : Config) (env : Env) (t : String)
    (ha : cfg.action = "start") (hr : env.regtoken = some t)
    (hu : validUuid env.uuidStr = true)
    (hb : cfg.mode = "buildx" → ∃ r, env.createRes 0 = Except.ok r) :
    make_label env.uuidStr ≠ "" ∧
    '-' ∉ (make_label env.uuidStr).data ∧
    (∀ req ∈ createEvents (main_run cfg env).1,
        req.tags = [("Name", make_label env.uuidStr)]) ∧
    (∃ req, (createEvents (main_run cfg env).1).getLast? = some req ∧
        strContainsSub req.userData (" --labels " ++ make_label env.uuidStr) = true) := by
  obtain ⟨hne, hnd⟩ := make_label_of_validUuid env.uuidStr hu
  by_cases hm : cfg.mode = "buildx"
  · obtain ⟨r, hc⟩ := hb hm
    have hev : createEvents (main_run cfg env).1 =
        [create_instance_request cfg cfg.arm_ami cfg.arm_instancetype
           (make_label env.uuidStr) arm_userdata,
         create_instance_request cfg cfg.amd_ami cfg.amd_instancetype
           (make_label env.uuidStr)
           (amd_userdata cfg.repo t (make_label env.uuidStr)
             (buildx_userdata r.privateIp))] := by
      rw [main_run_start_fst cfg env ha, start_run_fst_buildx cfg env t r hm hr hc]
      rfl
    refine ⟨hne, hnd, ?_, ?_⟩
    · intro req hreq
      rw [hev] at hreq
      simp only [List.mem_cons, List.not_mem_nil, or_false] at hreq
      rcases hreq with h | h <;> rw [h] <;> rfl
    · refine ⟨create_instance_request cfg cfg.amd_ami cfg.amd_instancetype
          (make_label env.uuidStr)
          (amd_userdata cfg.repo t (make_label env.uuidStr) (buildx_userdata r.privateIp)),
        ?_, amd_userdata_contains_labels_flag _ _ _ _⟩
      rw [hev]
      rfl
  · have hev : createEvents (main_run cfg env).1 =
        [create_instance_request cfg cfg.amd_ami cfg.amd_instancetype
           (make_label env.uuidStr)
           (amd_userdata cfg.repo t (make_label env.uuidStr) "")] := by
      rw [main_run_start_fst cfg env ha, start_run_fst_nonbuildx cfg env t hm hr]
      rfl
    refine ⟨hne, hnd, ?_, ?_⟩
    · intro req hreq
      rw [hev] at hreq
      simp only [List.mem_cons, List.not_mem_nil, or_false] at hreq
      rw [hreq]
      rfl
    · refine ⟨create_instance_request cfg cfg.amd_ami cfg.amd_instancetype
          (make_label env.uuidStr)
          (amd_userdata cfg.repo t (make_label env.uuidStr) ""),
        ?_, amd_userdata_contains_labels_flag _ _ _ _⟩
      rw [hev]
      rfl

/-- Claim C6 witness. -/
theorem start_label_invariants_w :
    make_label sampleEnv.uuidStr ≠ "" ∧
    '-' ∉ (make_label sampleEnv.uuidStr).data ∧
    (∀ req ∈ createEvents (main_run sampleCfg sampleEnv).1,
        req.tags = [("Name", make_label sampleEnv.uuidStr)]) ∧
    (∃ req, (createEvents (main_run sampleCfg sampleEnv).1).getLast? = some req ∧
        strContainsSub req.userData
          (" --labels " ++ make_label sampleEnv.uuidStr) = true) :=
  start_label_invariants sampleCfg sampleEnv "tok" rfl rfl (by decide)
    (fun h => absurd h (by decide))

/-- Claim C7 counterexample: with the sample start configuration, the
`::set-output` label line is the third event of the run's trace while the
first three events contain no instance-creation call; the invocation's
single instance-creation call is issued only afterwards.  The output line
is therefore not produced after the primary instance-creation call. -/
theorem set_output_order_cex :
    (main_run sampleCfg sampleEnv).1[2]? =
      some (Event.printed "::set-output name=label::12345678") ∧
    createEvents ((main_run sampleCfg sampleEnv).1.take 3) = [] ∧
    (createEvents (main_run sampleCfg sampleEnv).1).length = 1 :=
  ⟨rfl, rfl, rfl⟩

/-- Claim C7 amended: on every start invocation (with a successful ARM
helper launch when in buildx mode), the `::set-output` label line is
produced immediately before the primary (AMD) instance-creation call is
issued. -/
theorem set_output_immediately_before_create (cfg : Config) (env : Env) (t : String)
    (ha : cfg.action = "start") (hr : env.regtoken = some t)
    (hb : cfg.mode = "buildx" → ∃ r, env.createRes 0 = Except.ok r) :
    ∃ pre ud, (main_run cfg env).1 =
      pre ++ [Event.printed ("::set-output name=label::" ++ make_label env.uuidStr),
              Event.createInstance (create_instance_request cfg cfg.amd_ami
                cfg.amd_instancetype (make_label env.uuidStr) ud)] := by
  by_cases hm : cfg.mode = "buildx"
  · obtain ⟨r, hc⟩ := hb hm
    refine ⟨[Event.regTokenFetch,
       Event.printed ("Creating instances with tag " ++ make_label env.uuidStr),
       Event.createInstance (create_instance_request cfg cfg.arm_ami
         cfg.arm_instancetype (make_label env.uuidStr) arm_userdata),
       Event.printed ("Started ARM instance " ++ r.instanceId ++ " at " ++ r.privateIp),
       Event.printed ("Sleeping for 20s so " ++ r.instanceId ++ " will be ready"),
       Event.sleep 20],
      amd_userdata cfg.repo t (make_label env.uuidStr) (buildx_userdata r.privateIp), ?_⟩
    rw [main_run_start_fst cfg env ha, start_run_fst_buildx cfg env t r hm hr hc]
    rfl
  · refine ⟨[Event.regTokenFetch,
       Event.printed ("Creating instances with tag " ++ make_label env.uuidStr)],
      amd_userdata cfg.repo t (make_label env.uuidStr) "", ?_⟩
    rw [main_run_start_fst cfg env ha, start_run_fst_nonbuildx cfg env t hm hr]
    rfl

/-- Claim C7 amended witness. -/
theorem set_output_immediately_before_create_w :
    ∃ pre ud, (main_run sampleCfg sampleEnv).1 =
      pre ++ [Event.printed ("::set-output name=label::" ++ make_label sampleEnv.uuidStr),
              Event.createInstance (create_instance_request sampleCfg sampleCfg.amd_ami
                sampleCfg.amd_instancetype (make_label sampleEnv.uuidStr) ud)] :=
  set_output_immediately_before_create sampleCfg sampleEnv "tok" rfl rfl
    (fun h => absurd h (by decide))

end EC2Runners
